import Mathlib

/-!
# Verification of the factor-portfolio construction engine

Shallow embedding of `src/portfolio_construction.py` (function
`construct_factor_portfolio`) from the qr-factor-replication repository.

The embedding models the firm-month panel after the initial
`read_parquet` + `drop_nulls` step as a `List Obs` whose required fields
(`me`, `ret_exc_lead1m`, characteristic) are present.  Real-valued columns
are modelled as `ℚ`.  Polars aggregation/join semantics are modelled as
follows:

* `group_by(k).agg(e)` over a frame: a group exists for key `k` exactly
  when at least one row carries that key; the aggregate is a function of
  the group's rows.
* `join(other, on='eom', how='left')` against a `group_by('eom')` result
  (unique keys): a per-row lookup returning `none` when no group exists.
* `Expr.quantile(q)` uses polars' default interpolation `"nearest"`:
  with `n` non-null values sorted ascending, the returned value is the
  element at index `round((n-1)·q)` (round half away from zero, clamped
  to `n-1`).
* `pivot` produces, per index value, an optional cell per observed
  bucket; referencing a column for a bucket value that occurs nowhere in
  the frame raises `ColumnNotFoundError`, modelled as an `Except.error`.
* `clip(lower, upper)` with a null bound leaves that side unclipped.

The pipeline itself returns `Except String (List (Nat × Option ℚ))`:
either the error raised (`ValueError` for an unknown weighting scheme,
`ColumnNotFoundError` from the pivot stage) or the final two-column table
(month-end key, named factor return).
-/

-- Batteries marks the `Rat` field operations irreducible, which blocks
-- `decide` on concrete pipeline runs; re-allow unfolding them here.
attribute [local semireducible] Rat.add Rat.mul Rat.inv Rat.sub

/-! ## Quantiles (polars default interpolation) -/

/-- Ascending sort of the values of a column, as used by a quantile
computation. -/
def sortedVals (xs : List ℚ) : List ℚ :=
  List.insertionSort (· ≤ ·) xs

/-- Index selected by polars' `"nearest"` quantile interpolation on `n`
values: `round((n-1)·q)` with round half away from zero, clamped to
`n-1`. -/
def nearestIdx (n : Nat) (q : ℚ) : Nat :=
  min (Rat.floor (((n : ℚ) - 1) * q + 1/2)).toNat (n - 1)

/-- `Expr.quantile(q)` with polars' default interpolation (`"nearest"`):
`none` on an empty column, otherwise the order statistic at
`nearestIdx`. -/
def polarsQuantile (xs : List ℚ) (q : ℚ) : Option ℚ :=
  if xs.isEmpty then none
  else some ((sortedVals xs).getD (nearestIdx xs.length q) 0)

/-- A pair of quantiles of the same column, as produced by the
`group_by('eom').agg(quantile, quantile)` patterns of the source: `some`
exactly when the group is non-empty. -/
def quantPair (xs : List ℚ) (q1 q2 : ℚ) : Option (ℚ × ℚ) :=
  match polarsQuantile xs q1, polarsQuantile xs q2 with
  | some a, some b => some (a, b)
  | _, _ => none

/-- Spec-side definition, for comparison with `polarsQuantile`:
the standard linearly-interpolated percentile (R type 7 / numpy default),
`x_⌊h⌋ + (h - ⌊h⌋)·(x_⌊h⌋₊1 - x_⌊h⌋)` at `h = (n-1)·q`. -/
def linearQuantile (xs : List ℚ) (q : ℚ) : Option ℚ :=
  if xs.isEmpty then none
  else
    let l := sortedVals xs
    let n := xs.length
    let h : ℚ := ((n : ℚ) - 1) * q
    let lo := (Rat.floor h).toNat
    let x0 := l.getD (min lo (n - 1)) 0
    let x1 := l.getD (min (lo + 1) (n - 1)) 0
    some (x0 + (h - (Rat.floor h : ℚ)) * (x1 - x0))

/-! ## Data model -/

/-- One firm-month observation of the characteristic panel, after the
initial `read_parquet(columns=...)` and
`drop_nulls([characteristic, 'me', 'size_grp', 'ret_exc_lead1m'])`:
the fields the pipeline reads are present.  `ret` is the forward
one-month excess return `ret_exc_lead1m`, `char` the sorting
characteristic column. -/
structure Obs where
  eom : Nat
  permno : Nat
  crsp_exchcd : Int
  source_crsp : Nat
  me : ℚ
  ret : ℚ
  char : ℚ
deriving DecidableEq, Repr

/-- An observation joined with its month's size breakpoints
(`me_p20`, `me_p80`), surviving the `drop_nulls(['me_p20'])`. -/
structure Row2 extends Obs where
  me_p20 : ℚ
  me_p80 : ℚ
deriving DecidableEq, Repr

/-- A `Row2` joined with its month's characteristic breakpoints,
surviving the `drop_nulls(['char_p33'])`. -/
structure Row3 extends Row2 where
  char_p33 : ℚ
  char_p67 : ℚ
deriving DecidableEq, Repr

/-- Tercile bucket labels (the string literals `'Low'`/`'Mid'`/`'High'`
of the source). -/
inductive Bucket where
  | Low
  | Mid
  | High
deriving DecidableEq, Repr

/-- A fully joined row carrying its assigned portfolio label. -/
structure Row4 extends Row3 where
  portfolio : Bucket
deriving DecidableEq, Repr

/-! ## Winsorization (lines 29-53 of the source) -/

/-- Forward returns of the primary-source (CRSP, `source_crsp == 1`)
observations of month `m`: the group the return cutoffs are computed
over. -/
def primaryRets (df : List Obs) (m : Nat) : List ℚ :=
  (df.filter (fun r => r.source_crsp == 1 && r.eom == m)).map Obs.ret

/-- The per-month 0.1%/99.9% return cutoffs (`ret_p001`, `ret_p999`),
computed over CRSP observations only; `none` when the month has no CRSP
observation (left join yields nulls). -/
def ret_cutoffs (df : List Obs) (m : Nat) : Option (ℚ × ℚ) :=
  quantPair (primaryRets df m) (1/1000) (999/1000)

/-- The winsorization `with_columns`: a Compustat-sourced row
(`source_crsp == 0`) has its return clipped into its month's cutoffs
(null cutoffs clip nothing); any other row passes through unchanged. -/
def winsorizeRow (df : List Obs) (r : Obs) : Obs :=
  if r.source_crsp == 0 then
    match ret_cutoffs df r.eom with
    | some (lo, hi) => { r with ret := min (max r.ret lo) hi }
    | none => r
  else r

/-- The winsorized panel: cutoffs are computed from `df`, joined by
month, applied row-wise, and the cutoff columns dropped. -/
def winsorize (df : List Obs) : List Obs :=
  df.map (winsorizeRow df)

/-- The `be_me` positivity screen: when the characteristic is `be_me`,
keep only rows with a strictly positive characteristic. -/
def beFilter (characteristic : String) (df : List Obs) : List Obs :=
  if characteristic == "be_me" then df.filter (fun r => decide (0 < r.char))
  else df

/-! ## Breakpoints and joins (lines 58-78) -/

/-- Market equities of the NYSE (`crsp_exchcd == 1`) observations of
month `m`: the reference-exchange group for size breakpoints. -/
def nyseMes (df : List Obs) (m : Nat) : List ℚ :=
  (df.filter (fun r => r.crsp_exchcd == 1 && r.eom == m)).map Obs.me

/-- Per-month size breakpoints (`me_p20`, `me_p80`): 20th/80th
percentiles of NYSE market equity; `none` when the month has no NYSE
observation. -/
def size_breakpoints (df : List Obs) (m : Nat) : Option (ℚ × ℚ) :=
  quantPair (nyseMes df m) (1/5) (4/5)

/-- Left join of the size breakpoints followed by
`drop_nulls(['me_p20'])`: rows of months with no NYSE stock are
dropped. -/
def joinSize (df : List Obs) : List Row2 :=
  df.filterMap (fun r =>
    (size_breakpoints df r.eom).map (fun p => ⟨r, p.1, p.2⟩))

/-- Characteristic values of the non-micro-cap (`me > me_p20`)
observations of month `m`. -/
def nonMicroChars (df2 : List Row2) (m : Nat) : List ℚ :=
  ((df2.filter (fun r => decide (r.me_p20 < r.me))).filter
    (fun r => r.eom == m)).map (fun r => r.char)

/-- Per-month characteristic breakpoints (`char_p33`, `char_p67`):
33rd/67th percentiles of the characteristic over non-micro-caps; `none`
when the month has no non-micro-cap. -/
def char_breakpoints (df2 : List Row2) (m : Nat) : Option (ℚ × ℚ) :=
  quantPair (nonMicroChars df2 m) (1/3) (2/3)

/-- Left join of the characteristic breakpoints followed by
`drop_nulls(['char_p33'])`. -/
def joinChar (df2 : List Row2) : List Row3 :=
  df2.filterMap (fun r =>
    (char_breakpoints df2 r.eom).map (fun p => ⟨r, p.1, p.2⟩))

/-! ## Portfolio assignment (lines 80-87) -/

/-- The `when/then/otherwise` chain assigning a bucket: `char ≤ p33 →
Low`, else `char > p67 → High`, otherwise `Mid`. -/
def assignBucket (c p33 p67 : ℚ) : Bucket :=
  if c ≤ p33 then Bucket.Low
  else if p67 < c then Bucket.High
  else Bucket.Mid

/-- The assignment `with_columns`: every joined row receives its
portfolio label. -/
def assign (df3 : List Row3) : List Row4 :=
  df3.map (fun r => ⟨r, assignBucket r.char r.char_p33 r.char_p67⟩)

/-- The panel after winsorization, the `be_me` screen, both breakpoint
joins with their null drops, and portfolio assignment. -/
def assigned (df : List Obs) (characteristic : String) : List Row4 :=
  assign (joinChar (joinSize (beFilter characteristic (winsorize df))))

/-! ## Aggregation (lines 89-110) -/

/-- Equal-weight aggregate: `pl.mean('ret_exc_lead1m')` over the
group. -/
def port_ret_ew (g : List Row4) : ℚ :=
  (g.map (fun r => r.ret)).sum / (g.length : ℚ)

/-- Value-weight aggregate: `((me / me.sum()) * ret).sum()` over the
group. -/
def port_ret_vw (g : List Row4) : ℚ :=
  (g.map (fun r => r.me / (g.map (fun x => x.me)).sum * r.ret)).sum

/-- The capped market equity:
`when(me > me_p80).then(me_p80).otherwise(me)`. -/
def cappedMe (r : Row4) : ℚ :=
  if r.me_p80 < r.me then r.me_p80 else r.me

/-- Capped value-weight aggregate: weights proportional to the capped
market equity. -/
def port_ret_vw_cap (g : List Row4) : ℚ :=
  (g.map (fun r => cappedMe r / (g.map cappedMe).sum * r.ret)).sum

/-- Dispatch on the weighting scheme (the `ew`/`vw`/`vw_cap` branches of
the source; an unknown scheme never reaches this point). -/
def port_ret (scheme : String) (g : List Row4) : ℚ :=
  if scheme == "ew" then port_ret_ew g
  else if scheme == "vw" then port_ret_vw g
  else port_ret_vw_cap g

/-- Recognized weighting-scheme identifiers; anything else raises
`ValueError` in the source. -/
def schemeValid (s : String) : Bool :=
  s == "ew" || s == "vw" || s == "vw_cap"

/-- Rows of the `(eom, portfolio)` group `(m, b)`. -/
def bucketRows (df4 : List Row4) (m : Nat) (b : Bucket) : List Row4 :=
  df4.filter (fun r => r.eom == m && r.portfolio == b)

/-- One pivoted cell: the aggregate return (`port_ret_{b}`) and
constituent count (`n_stocks_{b}`) of `(m, b)`, `none` when the month
has no row in that bucket. -/
def cell (scheme : String) (df4 : List Row4) (m : Nat) (b : Bucket) :
    Option (ℚ × Nat) :=
  let g := bucketRows df4 m b
  if g.isEmpty then none else some (port_ret scheme g, g.length)

/-- The pivot index: distinct months of the aggregated frame, in
ascending order (`sort('eom')`). -/
def monthsSorted (df4 : List Row4) : List Nat :=
  List.insertionSort (· ≤ ·) ((df4.map (fun r => r.eom)).dedup)

/-- The post-pivot filter
`(n_stocks_Low >= 5) & (n_stocks_High >= 5)`; a null count (absent
bucket) fails the filter. -/
def passesFilter (scheme : String) (df4 : List Row4) (m : Nat) : Bool :=
  match cell scheme df4 m Bucket.Low, cell scheme df4 m Bucket.High with
  | some (_, nl), some (_, nh) => decide (5 ≤ nl) && decide (5 ≤ nh)
  | _, _ => false

/-- Null-propagating subtraction of two nullable columns. -/
def optSub : Option ℚ → Option ℚ → Option ℚ
  | some a, some b => some (a - b)
  | _, _ => none

/-- The named factor column: `port_ret_High - port_ret_Low` when the
direction is `'long'`, `port_ret_Low - port_ret_High` otherwise. -/
def factorValue (scheme dir : String) (df4 : List Row4) (m : Nat) :
    Option ℚ :=
  let hi := (cell scheme df4 m Bucket.High).map Prod.fst
  let lo := (cell scheme df4 m Bucket.Low).map Prod.fst
  if dir == "long" then optSub hi lo else optSub lo hi

/-- The full construction pipeline on the loaded panel.  Returns the
final `(eom, factor)` table, or the error the run raises: `ValueError`
for an unknown weighting scheme, and polars' `ColumnNotFoundError` when
the pivot produced no `Low` or no `High` column at all (the filter and
spread reference those columns by name). -/
def construct_factor_portfolio (df : List Obs) (characteristic : String)
    (weighting_scheme : String) (long_short_direction : String) :
    Except String (List (Nat × Option ℚ)) :=
  if schemeValid weighting_scheme then
    let df4 := assigned df characteristic
    if df4.any (fun r => r.portfolio == Bucket.Low) &&
        df4.any (fun r => r.portfolio == Bucket.High) then
      Except.ok
        (((monthsSorted df4).filter (passesFilter weighting_scheme df4)).map
          (fun m => (m, factorValue weighting_scheme long_short_direction df4 m)))
    else Except.error "ColumnNotFoundError"
  else Except.error ("Unknown weighting scheme: " ++ weighting_scheme)

deriving instance DecidableEq for Except

/-! ## Concrete panels used by witnesses and counterexamples -/

/-- Convenience constructor for a firm-month observation. -/
def mkObs (eom permno : Nat) (ex : Int) (src : Nat) (me ret ch : ℚ) : Obs :=
  ⟨eom, permno, ex, src, me, ret, ch⟩

/-- A one-month panel of ten NYSE, CRSP-sourced firms whose
characteristic splits them five/five into the Low and High terciles
(Low-bucket returns all `1`, High-bucket returns all `2`). -/
def df10 : List Obs :=
  [mkObs 0 1 1 1 10 2 50, mkObs 0 2 1 1 20 2 50, mkObs 0 3 1 1 30 2 50,
   mkObs 0 4 1 1 40 1 0, mkObs 0 5 1 1 50 1 0, mkObs 0 6 1 1 60 1 0,
   mkObs 0 7 1 1 70 1 0, mkObs 0 8 1 1 80 1 0,
   mkObs 0 9 1 1 90 2 50, mkObs 0 10 1 1 100 2 50]

/-- A one-month panel of two NYSE firms with market equities 1 and 2:
the smallest panel separating nearest-index from linear quantile
interpolation. -/
def dfC1 : List Obs :=
  [mkObs 0 1 1 1 1 0 0, mkObs 0 2 1 1 2 0 0]

/-! ## Quantile lemmas -/

theorem sortedVals_sorted (xs : List ℚ) :
    List.Sorted (· ≤ ·) (sortedVals xs) :=
  List.sorted_insertionSort _ xs

theorem sortedVals_length (xs : List ℚ) :
    (sortedVals xs).length = xs.length :=
  (List.perm_insertionSort _ xs).length_eq

theorem ratFloor_mono {a b : ℚ} (h : a ≤ b) : Rat.floor a ≤ Rat.floor b :=
  Rat.le_floor.mpr (le_trans (Rat.le_floor.mp (le_refl _)) h)

theorem nearestIdx_lt {n : Nat} (hn : 0 < n) (q : ℚ) : nearestIdx n q < n :=
  Nat.lt_of_le_of_lt (Nat.min_le_right _ _) (Nat.sub_lt hn Nat.one_pos)

theorem nearestIdx_mono {n : Nat} (hn : 1 ≤ n) {q1 q2 : ℚ} (h : q1 ≤ q2) :
    nearestIdx n q1 ≤ nearestIdx n q2 := by
  have hn' : (0 : ℚ) ≤ (n : ℚ) - 1 := by
    have : (1 : ℚ) ≤ (n : ℚ) := by exact_mod_cast hn
    linarith
  have hmul : ((n : ℚ) - 1) * q1 + 1/2 ≤ ((n : ℚ) - 1) * q2 + 1/2 := by
    have := mul_le_mul_of_nonneg_left h hn'
    linarith
  exact min_le_min (Int.toNat_le_toNat (ratFloor_mono hmul)) (le_refl _)

theorem sorted_getD_mono {l : List ℚ} (hs : List.Sorted (· ≤ ·) l)
    {i j : Nat} (hij : i ≤ j) (hj : j < l.length) :
    l.getD i 0 ≤ l.getD j 0 := by
  have hi : i < l.length := lt_of_le_of_lt hij hj
  rw [List.getD_eq_getElem l 0 hi, List.getD_eq_getElem l 0 hj]
  rcases Nat.lt_or_ge i j with hlt | hge
  · exact (List.pairwise_iff_getElem.mp hs) i j hi hj hlt
  · have : i = j := Nat.le_antisymm hij hge
    subst this
    exact le_refl _

theorem polarsQuantile_ne_nil {xs : List ℚ} {q : ℚ} {a : ℚ}
    (h : polarsQuantile xs q = some a) : xs ≠ [] := by
  intro hnil
  subst hnil
  simp [polarsQuantile] at h

theorem polarsQuantile_mono {xs : List ℚ} {q1 q2 : ℚ} (h : q1 ≤ q2)
    {a b : ℚ} (ha : polarsQuantile xs q1 = some a)
    (hb : polarsQuantile xs q2 = some b) : a ≤ b := by
  have hne : xs ≠ [] := polarsQuantile_ne_nil ha
  have hlen : 0 < xs.length := List.length_pos.mpr hne
  have hemp : xs.isEmpty = false := by
    cases xs with
    | nil => exact absurd rfl hne
    | cons x xs => rfl
  rw [polarsQuantile, hemp] at ha hb
  simp only [Bool.false_eq_true, if_false, Option.some_inj] at ha hb
  subst ha hb
  exact sorted_getD_mono (sortedVals_sorted xs)
    (nearestIdx_mono hlen h)
    (by rw [sortedVals_length]; exact nearestIdx_lt hlen q2)

theorem quantPair_eq_some {xs : List ℚ} {q1 q2 : ℚ} {a b : ℚ}
    (h : quantPair xs q1 q2 = some (a, b)) :
    polarsQuantile xs q1 = some a ∧ polarsQuantile xs q2 = some b := by
  rw [quantPair] at h
  cases h1 : polarsQuantile xs q1 with
  | none => rw [h1] at h; cases h
  | some x =>
    cases h2 : polarsQuantile xs q2 with
    | none => rw [h1, h2] at h; cases h
    | some y =>
      rw [h1, h2] at h
      cases h
      exact ⟨rfl, rfl⟩

theorem quantPair_le {xs : List ℚ} {q1 q2 : ℚ} (hq : q1 ≤ q2) {a b : ℚ}
    (h : quantPair xs q1 q2 = some (a, b)) : a ≤ b := by
  obtain ⟨h1, h2⟩ := quantPair_eq_some h
  exact polarsQuantile_mono hq h1 h2

/-! ## Aggregation lemmas -/

theorem list_sum_map_div {α : Type} (l : List α) (f : α → ℚ) (c : ℚ) :
    (l.map (fun x => f x / c)).sum = (l.map f).sum / c := by
  induction l with
  | nil => simp
  | cons x xs ih => simp [ih, add_div]

/-! ## Claims -/

/-- Claim C1 (refuted; the spec is the intent, the code a slip): the
claim states every per-month quantile uses linear interpolation between
order statistics.  The source calls polars `quantile` with its default
interpolation `"nearest"`: on a month whose NYSE market equities are
`[1, 2]`, the pipeline's size breakpoints are `(1, 2)` (nearest order
statistics), while linear interpolation prescribes `(6/5, 9/5)`. -/
theorem C1_nearest_not_linear :
    size_breakpoints dfC1 0 = some (1, 2) ∧
    linearQuantile [1, 2] (1/5) = some (6/5) ∧
    linearQuantile [1, 2] (4/5) = some (9/5) ∧
    size_breakpoints dfC1 0 ≠ some (6/5, 9/5) := by
  decide

/-- Claim C2: under the capped value-weight scheme, a (month, bucket)
group's aggregate return is the weighted mean of its constituents'
forward returns with weights `min(me, me_p80) / Σ min(me, me_p80)`
(which sum to 1), where `me_p80` is the month's 80th-percentile size
breakpoint, constant over the group. -/
theorem C2_capped_value_weight (g : List Row4) (B : ℚ)
    (hB : ∀ r ∈ g, r.me_p80 = B)
    (hS : (g.map (fun x => min x.me B)).sum ≠ 0) :
    port_ret "vw_cap" g =
      (g.map (fun r =>
        min r.me B / (g.map (fun x => min x.me B)).sum * r.ret)).sum ∧
    (g.map (fun r =>
      min r.me B / (g.map (fun x => min x.me B)).sum)).sum = 1 := by
  have hc : ∀ r ∈ g, cappedMe r = min r.me B := by
    intro r hr
    rw [cappedMe, hB r hr]
    rcases le_or_lt r.me B with hle | hlt
    · rw [if_neg (not_lt.mpr hle), min_eq_left hle]
    · rw [if_pos hlt, min_eq_right hlt.le]
  have hmap : g.map cappedMe = g.map (fun x => min x.me B) :=
    List.map_congr_left hc
  constructor
  · show port_ret_vw_cap g = _
    rw [port_ret_vw_cap]
    refine congrArg List.sum (List.map_congr_left ?_)
    intro r hr
    rw [hc r hr, hmap]
  · rw [list_sum_map_div]
    exact div_self hS

/-- The claim's worked example: constituents with market equities
`[50, 150]`, breakpoint `100`, returns `[1/10, -1/20]`. -/
def g2 : List Row4 :=
  [⟨⟨⟨mkObs 0 1 1 1 50 (1/10) 0, 0, 100⟩, 0, 0⟩, Bucket.Low⟩,
   ⟨⟨⟨mkObs 0 2 1 1 150 (-(1/20)) 0, 0, 100⟩, 0, 0⟩, Bucket.Low⟩]

/-- Witness for C2 at the spec's example: weights are `50/150` and
`100/150`, i.e. `[1/3, 2/3]`. -/
theorem C2_witness :
    (port_ret "vw_cap" g2 =
      (g2.map (fun r =>
        min r.me 100 / (g2.map (fun x => min x.me 100)).sum * r.ret)).sum ∧
     (g2.map (fun r =>
       min r.me 100 / (g2.map (fun x => min x.me 100)).sum)).sum = 1) ∧
    g2.map (fun r =>
      min r.me 100 / (g2.map (fun x => min x.me 100)).sum) = [1/3, 2/3] :=
  ⟨C2_capped_value_weight g2 100 (by decide) (by decide), by decide⟩

/-- Claim C9: the construction pipeline is deterministic — a pure
function of the input panel and the configuration: equal inputs give
equal (hence byte-identical) output tables. -/
theorem C9_deterministic (dfa dfb : List Obs) (ca cb sa sb da db : String)
    (hdf : dfa = dfb) (hc : ca = cb) (hs : sa = sb) (hd : da = db) :
    construct_factor_portfolio dfa ca sa da =
      construct_factor_portfolio dfb cb sb db := by
  subst hdf hc hs hd
  rfl

/-- Witness for C9 at a concrete run. -/
theorem C9_witness :
    construct_factor_portfolio df10 "x" "ew" "long" =
      construct_factor_portfolio df10 "x" "ew" "long" :=
  C9_deterministic df10 df10 "x" "x" "ew" "ew" "long" "long" rfl rfl rfl rfl

/-- Claim C3: per-month return cutoffs are computed from primary-source
(CRSP) observations only; a non-primary observation's forward return is
clipped into `[p001, p999]` (with `p001 ≤ p999`), a primary
observation's return is left exactly unchanged, and winsorization is the
row-wise map applying this. -/
theorem C3_winsorization (df : List Obs) (r : Obs) (lo hi : ℚ) (m : Nat) :
    winsorize df = df.map (winsorizeRow df) ∧
    ret_cutoffs df m =
      ret_cutoffs (df.filter (fun x => x.source_crsp == 1)) m ∧
    (r.source_crsp = 1 → winsorizeRow df r = r) ∧
    (r.source_crsp = 0 → ret_cutoffs df r.eom = some (lo, hi) →
      (winsorizeRow df r).ret = min (max r.ret lo) hi ∧
      lo ≤ hi ∧
      lo ≤ (winsorizeRow df r).ret ∧
      (winsorizeRow df r).ret ≤ hi) := by
  refine ⟨rfl, ?_, ?_, ?_⟩
  · have hfil : (df.filter (fun x => x.source_crsp == 1)).filter
        (fun x => x.source_crsp == 1 && x.eom == m) =
        df.filter (fun x => x.source_crsp == 1 && x.eom == m) := by
      rw [List.filter_filter]
      refine List.filter_congr ?_
      intro x _
      cases h : x.source_crsp == 1 <;> simp [h]
    rw [ret_cutoffs, ret_cutoffs, primaryRets, primaryRets, hfil]
  · intro h1
    rw [winsorizeRow, h1]
    rfl
  · intro h0 hc
    have hwr : winsorizeRow df r = { r with ret := min (max r.ret lo) hi } := by
      simp only [winsorizeRow, h0, hc, beq_self_eq_true, if_true]
    rw [hwr]
    have hlohi : lo ≤ hi := quantPair_le (by norm_num) hc
    exact ⟨rfl, hlohi, le_min (le_max_right _ _) hlohi, min_le_right _ _⟩

/-- Panel for the C3 witness: two primary observations with returns
`-1/2` and `4/5` (so the month's cutoffs are `(-1/2, 4/5)`), and one
non-primary observation with return `6/5`. -/
def df3w : List Obs :=
  [mkObs 0 1 1 1 1 (-(1/2)) 0, mkObs 0 2 1 1 1 (4/5) 0,
   mkObs 0 3 1 0 1 (6/5) 0]

/-- Witness for C3 at the spec's example: with cutoffs `(-1/2, 4/5)` the
non-primary return `6/5` is clipped to `4/5`, the primary row is
untouched. -/
theorem C3_witness :
    ((winsorizeRow df3w (mkObs 0 3 1 0 1 (6/5) 0)).ret =
        min (max (6/5) (-(1/2))) (4/5) ∧
      -(1/2) ≤ (4/5 : ℚ) ∧
      -(1/2) ≤ (winsorizeRow df3w (mkObs 0 3 1 0 1 (6/5) 0)).ret ∧
      (winsorizeRow df3w (mkObs 0 3 1 0 1 (6/5) 0)).ret ≤ 4/5) ∧
    winsorizeRow df3w (mkObs 0 1 1 1 1 (-(1/2)) 0) =
      mkObs 0 1 1 1 1 (-(1/2)) 0 ∧
    (winsorizeRow df3w (mkObs 0 3 1 0 1 (6/5) 0)).ret = 4/5 :=
  ⟨(C3_winsorization df3w (mkObs 0 3 1 0 1 (6/5) 0) (-(1/2)) (4/5) 0).2.2.2
      rfl (by decide),
   (C3_winsorization df3w (mkObs 0 1 1 1 1 (-(1/2)) 0) 0 0 0).2.2.1 rfl,
   by decide⟩

/-- Panel for C8: one month whose two observations are all
non-primary-source (and NYSE-listed), with returns `7` and `9`. -/
def df8 : List Obs :=
  [mkObs 0 1 1 0 1 7 1, mkObs 0 2 1 0 2 9 2]

/-- Claim C8 counterexample: in a month with zero primary-source
observations the joined cutoffs are indeed null, but the observations
are NOT excluded downstream — both rows of `df8` survive, with their
returns left unclipped, into the assigned table that feeds
aggregation.  There is no null-cutoff drop in the code. -/
theorem C8_counterexample :
    ret_cutoffs df8 0 = none ∧
    (assigned df8 "x").map (fun r => r.ret) = [7, 9] ∧
    (assigned df8 "x").length = 2 := by
  decide

/-- Claim C8 amended: in a month with zero primary-source observations
the joined cutoffs are null and clipping is skipped — the observation
passes through the winsorizer unchanged (unclipped) and is retained:
the winsorizer never drops rows, and no null-cutoff drop exists
(rows are only dropped later by the null-breakpoint drops). -/
theorem C8_amended (df : List Obs) (r : Obs) (h0 : r.source_crsp = 0)
    (hn : ret_cutoffs df r.eom = none) (hr : r ∈ df) :
    winsorizeRow df r = r ∧
    (winsorize df).length = df.length ∧
    r ∈ winsorize df := by
  have h1 : winsorizeRow df r = r := by
    rw [winsorizeRow, h0]
    simp only [beq_self_eq_true, if_true, hn]
  refine ⟨h1, List.length_map df _, ?_⟩
  exact List.mem_map.mpr ⟨r, hr, h1⟩

/-- Witness for the amended C8 at the first row of `df8`. -/
theorem C8_witness :
    winsorizeRow df8 (mkObs 0 1 1 0 1 7 1) = mkObs 0 1 1 0 1 7 1 ∧
    (winsorize df8).length = df8.length ∧
    mkObs 0 1 1 0 1 7 1 ∈ winsorize df8 :=
  C8_amended df8 (mkObs 0 1 1 0 1 7 1) rfl (by decide) (by decide)

theorem bucket_partition (df4 : List Row4) (m : Nat) :
    (bucketRows df4 m Bucket.Low).length +
      (bucketRows df4 m Bucket.Mid).length +
      (bucketRows df4 m Bucket.High).length =
      (df4.filter (fun r => r.eom == m)).length := by
  induction df4 with
  | nil => rfl
  | cons r t ih =>
    cases hm : r.eom == m <;> cases hb : r.portfolio <;>
      simp only [bucketRows, List.filter_cons, hm, hb, beq_iff_eq,
        Bool.false_and, Bool.true_and, reduceCtorEq, if_false, if_true,
        Bool.false_eq_true, decide_True, decide_False, if_pos, List.length_cons] at * <;>
      simp_all <;> omega

/-- Claim C5: portfolio assignment is the pure function `char ≤ p33 →
Low`, `char > p67 → High`, otherwise `Mid` of the characteristic and
the month's breakpoints (which satisfy `p33 ≤ p67`); every row gets
exactly that label, and the three buckets partition each month's rows
with no overlaps and no omissions. -/
theorem C5_assignment (df2 : List Row2) (m : Nat) (p33 p67 c : ℚ)
    (df3 : List Row3) (df4 : List Row4)
    (hbp : char_breakpoints df2 m = some (p33, p67)) :
    p33 ≤ p67 ∧
    ((assignBucket c p33 p67 = Bucket.Low ↔ c ≤ p33) ∧
     (assignBucket c p33 p67 = Bucket.High ↔ p67 < c) ∧
     (assignBucket c p33 p67 = Bucket.Mid ↔ p33 < c ∧ c ≤ p67)) ∧
    (assign df3).map Row4.portfolio =
      df3.map (fun r => assignBucket r.char r.char_p33 r.char_p67) ∧
    (bucketRows df4 m Bucket.Low).length +
      (bucketRows df4 m Bucket.Mid).length +
      (bucketRows df4 m Bucket.High).length =
      (df4.filter (fun r => r.eom == m)).length := by
  have hp : p33 ≤ p67 := quantPair_le (by norm_num) hbp
  refine ⟨hp, ⟨?_, ?_, ?_⟩, ?_, bucket_partition df4 m⟩
  · rw [assignBucket]
    split_ifs with h1 h2 <;> simp [h1]
  · rw [assignBucket]
    split_ifs with h1 h2
    · simp [not_lt.mpr (h1.trans hp)]
    · simp [h2]
    · simp [h2]
  · rw [assignBucket]
    split_ifs with h1 h2
    · simp [not_lt.mpr h1]
    · simp [not_le.mpr h2]
    · simp [not_le.mp h1, not_lt.mp h2]
  · rw [assign, List.map_map]
    rfl

/-- A one-row joined table whose month-0 characteristic breakpoints are
`(5, 5)`. -/
def df2w : List Row2 :=
  [⟨mkObs 0 1 1 1 2 0 5, 1, 2⟩]

/-- A one-row breakpoint-joined table used by the C5 witness. -/
def df3c : List Row3 :=
  [⟨⟨mkObs 0 1 1 1 2 0 5, 1, 2⟩, 5, 5⟩]

/-- Witness for C5 at characteristic value 3 and breakpoints (5, 5). -/
theorem C5_witness :
    (5 : ℚ) ≤ 5 ∧
    ((assignBucket 3 5 5 = Bucket.Low ↔ (3 : ℚ) ≤ 5) ∧
     (assignBucket 3 5 5 = Bucket.High ↔ (5 : ℚ) < 3) ∧
     (assignBucket 3 5 5 = Bucket.Mid ↔ (5 : ℚ) < 3 ∧ (3 : ℚ) ≤ 5)) ∧
    (assign df3c).map Row4.portfolio =
      df3c.map (fun r => assignBucket r.char r.char_p33 r.char_p67) ∧
    (bucketRows g2 0 Bucket.Low).length +
      (bucketRows g2 0 Bucket.Mid).length +
      (bucketRows g2 0 Bucket.High).length =
      (g2.filter (fun r => r.eom == 0)).length :=
  C5_assignment df2w 0 5 5 3 df3c g2 (by decide)

/-- Claim C7 counterexample: a malformed direction value (not one of
the two valid tokens) does not raise any error — the pipeline completes
and returns the long-low spread. -/
theorem C7_counterexample :
    construct_factor_portfolio df10 "x" "ew" "banana" =
      Except.ok [(0, some (-1))] := by
  decide

/-- Claim C7 amended: an unknown weighting scheme makes the run fail
with the `ValueError` (raised mid-pipeline, after the panel is read and
winsorization and breakpoints are computed, not before any data is
touched); a malformed direction raises nothing and behaves exactly as
the long-low branch; with a recognized scheme the configuration error
never occurs. -/
theorem C7_amended (df : List Obs) (c s d : String) :
    (schemeValid s = false →
      construct_factor_portfolio df c s d =
        Except.error ("Unknown weighting scheme: " ++ s)) ∧
    (schemeValid s = true →
      (construct_factor_portfolio df c s d).isOk = true ∨
      construct_factor_portfolio df c s d =
        Except.error "ColumnNotFoundError") ∧
    (d ≠ "long" →
      construct_factor_portfolio df c s d =
        construct_factor_portfolio df c s "short") := by
  refine ⟨?_, ?_, ?_⟩
  · intro h
    simp [construct_factor_portfolio, h]
  · intro h
    simp only [construct_factor_portfolio, h, if_true]
    split
    · left
      rfl
    · right
      rfl
  · intro hd
    have hbeq : (d == "long") = false := beq_eq_false_iff_ne.mpr hd
    have hfv : ∀ (df4 : List Row4) (m : Nat),
        factorValue s d df4 m = factorValue s "short" df4 m := by
      intro df4 m
      rw [factorValue, factorValue, hbeq]
      rfl
    simp only [construct_factor_portfolio]
    simp only [hfv]

theorem construct_ok_eq {df : List Obs} {c s d : String}
    {out : List (Nat × Option ℚ)}
    (h : construct_factor_portfolio df c s d = Except.ok out) :
    out = ((monthsSorted (assigned df c)).filter
        (passesFilter s (assigned df c))).map
        (fun m => (m, factorValue s d (assigned df c) m)) := by
  simp only [construct_factor_portfolio] at h
  split_ifs at h with hs hp
  · injection h with h2
    exact h2.symm

theorem cell_spec (s : String) (df4 : List Row4) (m : Nat) (b : Bucket) :
    (bucketRows df4 m b = [] ∧ cell s df4 m b = none) ∨
    (bucketRows df4 m b ≠ [] ∧
      cell s df4 m b = some (port_ret s (bucketRows df4 m b),
        (bucketRows df4 m b).length)) := by
  cases hg : (bucketRows df4 m b).isEmpty
  · right
    have hne : bucketRows df4 m b ≠ [] := by
      intro h0
      rw [h0] at hg
      cases hg
    refine ⟨hne, ?_⟩
    rw [cell]
    simp only [hg, Bool.false_eq_true, if_false]
  · left
    have h0 : bucketRows df4 m b = [] := List.isEmpty_iff.mp hg
    refine ⟨h0, ?_⟩
    rw [cell]
    simp only [hg, if_true]

theorem passesFilter_iff (s : String) (df4 : List Row4) (m : Nat) :
    passesFilter s df4 m = true ↔
      (5 ≤ (bucketRows df4 m Bucket.Low).length ∧
       5 ≤ (bucketRows df4 m Bucket.High).length) := by
  rcases cell_spec s df4 m Bucket.Low with ⟨hL0, hLc⟩ | ⟨hL0, hLc⟩ <;>
    rcases cell_spec s df4 m Bucket.High with ⟨hH0, hHc⟩ | ⟨hH0, hHc⟩ <;>
      rw [passesFilter, hLc, hHc] <;>
      simp_all

theorem mem_monthsSorted_iff {df4 : List Row4} {m : Nat} :
    m ∈ monthsSorted df4 ↔ ∃ r, r ∈ df4 ∧ r.eom = m := by
  rw [monthsSorted, (List.perm_insertionSort _ _).mem_iff, List.mem_dedup,
    List.mem_map]

theorem bucketRows_sub {df4 : List Row4} {m : Nat} {b : Bucket} {r : Row4}
    (hr : r ∈ bucketRows df4 m b) : r ∈ df4 ∧ r.eom = m ∧ r.portfolio = b := by
  have h := List.mem_filter.mp hr
  have h2 := h.2
  rw [Bool.and_eq_true, beq_iff_eq, beq_iff_eq] at h2
  exact ⟨h.1, h2.1, h2.2⟩

/-- Claim C4: a month appears in the final factor series exactly when
its Low-bucket constituent count and its High-bucket constituent count
are both at least 5; the Mid count plays no role, and failing months
are absent from the output (not zero-filled). -/
theorem C4_month_filter (df : List Obs) (c s d : String)
    (out : List (Nat × Option ℚ)) (m : Nat)
    (hok : construct_factor_portfolio df c s d = Except.ok out) :
    m ∈ out.map Prod.fst ↔
      (5 ≤ (bucketRows (assigned df c) m Bucket.Low).length ∧
       5 ≤ (bucketRows (assigned df c) m Bucket.High).length) := by
  rw [construct_ok_eq hok, List.map_map]
  have hid : (Prod.fst ∘ fun m => (m, factorValue s d (assigned df c) m)) =
      id := rfl
  rw [hid, List.map_id, List.mem_filter]
  constructor
  · rintro ⟨-, hp⟩
    exact (passesFilter_iff s (assigned df c) m).mp hp
  · intro h
    refine ⟨?_, (passesFilter_iff s (assigned df c) m).mpr h⟩
    have hpos : 0 < (bucketRows (assigned df c) m Bucket.Low).length :=
      lt_of_lt_of_le (by norm_num) h.1
    obtain ⟨r, hr⟩ := List.exists_mem_of_length_pos hpos
    obtain ⟨hmem, heq, -⟩ := bucketRows_sub hr
    exact mem_monthsSorted_iff.mpr ⟨r, hmem, heq⟩

/-- Witness for C4 on a concrete run whose single month has exactly
five Low and five High constituents. -/
theorem C4_witness :
    0 ∈ ([((0 : Nat), some (1 : ℚ))].map Prod.fst) ↔
      (5 ≤ (bucketRows (assigned df10 "x") 0 Bucket.Low).length ∧
       5 ≤ (bucketRows (assigned df10 "x") 0 Bucket.High).length) :=
  C4_month_filter df10 "x" "ew" "long" [(0, some 1)] 0 (by decide)

theorem out_row_spec {df : List Obs} {c s d : String}
    {out : List (Nat × Option ℚ)} {p : Nat × Option ℚ}
    (hok : construct_factor_portfolio df c s d = Except.ok out)
    (hp : p ∈ out) :
    passesFilter s (assigned df c) p.1 = true ∧
    p.2 = factorValue s d (assigned df c) p.1 := by
  rw [construct_ok_eq hok] at hp
  obtain ⟨m, hm, rfl⟩ := List.mem_map.mp hp
  exact ⟨(List.mem_filter.mp hm).2, rfl⟩

theorem factorValue_of_passes {s d : String} {df4 : List Row4} {m : Nat}
    (h : passesFilter s df4 m = true) :
    cell s df4 m Bucket.Low =
      some (port_ret s (bucketRows df4 m Bucket.Low),
        (bucketRows df4 m Bucket.Low).length) ∧
    cell s df4 m Bucket.High =
      some (port_ret s (bucketRows df4 m Bucket.High),
        (bucketRows df4 m Bucket.High).length) ∧
    factorValue s d df4 m =
      some (if d == "long"
        then port_ret s (bucketRows df4 m Bucket.High) -
          port_ret s (bucketRows df4 m Bucket.Low)
        else port_ret s (bucketRows df4 m Bucket.Low) -
          port_ret s (bucketRows df4 m Bucket.High)) := by
  obtain ⟨hl5, hh5⟩ := (passesFilter_iff s df4 m).mp h
  have hLne : bucketRows df4 m Bucket.Low ≠ [] := by
    intro h0
    rw [h0] at hl5
    cases hl5
  have hHne : bucketRows df4 m Bucket.High ≠ [] := by
    intro h0
    rw [h0] at hh5
    cases hh5
  have hLc := (cell_spec s df4 m Bucket.Low).resolve_left
    (fun h0 => hLne h0.1)
  have hHc := (cell_spec s df4 m Bucket.High).resolve_left
    (fun h0 => hHne h0.1)
  refine ⟨hLc.2, hHc.2, ?_⟩
  rw [factorValue, hLc.2, hHc.2]
  cases hd : d == "long"
  · rfl
  · rfl

/-- Claim C10 (implicit): every row of the returned series belongs to a
month where both extreme buckets are present (their pivoted cells are
non-null) with counts at least 5, and its factor value is the non-null
difference of the two present extreme-bucket returns. -/
theorem C10_present_extremes (df : List Obs) (c s d : String)
    (out : List (Nat × Option ℚ)) (p : Nat × Option ℚ)
    (hok : construct_factor_portfolio df c s d = Except.ok out)
    (hp : p ∈ out) :
    cell s (assigned df c) p.1 Bucket.Low =
      some (port_ret s (bucketRows (assigned df c) p.1 Bucket.Low),
        (bucketRows (assigned df c) p.1 Bucket.Low).length) ∧
    cell s (assigned df c) p.1 Bucket.High =
      some (port_ret s (bucketRows (assigned df c) p.1 Bucket.High),
        (bucketRows (assigned df c) p.1 Bucket.High).length) ∧
    5 ≤ (bucketRows (assigned df c) p.1 Bucket.Low).length ∧
    5 ≤ (bucketRows (assigned df c) p.1 Bucket.High).length ∧
    p.2 = some (if d == "long"
      then port_ret s (bucketRows (assigned df c) p.1 Bucket.High) -
        port_ret s (bucketRows (assigned df c) p.1 Bucket.Low)
      else port_ret s (bucketRows (assigned df c) p.1 Bucket.Low) -
        port_ret s (bucketRows (assigned df c) p.1 Bucket.High)) := by
  obtain ⟨hpass, hval⟩ := out_row_spec hok hp
  obtain ⟨hl5, hh5⟩ := (passesFilter_iff s (assigned df c) p.1).mp hpass
  obtain ⟨hLc, hHc, hfv⟩ := factorValue_of_passes (d := d) hpass
  exact ⟨hLc, hHc, hl5, hh5, hval.trans hfv⟩

/-- Witness for C10 at a concrete run. -/
theorem C10_witness :
    cell "ew" (assigned df10 "x") ((0 : Nat), some (1 : ℚ)).1 Bucket.Low =
      some (port_ret "ew"
        (bucketRows (assigned df10 "x") ((0 : Nat), some (1 : ℚ)).1 Bucket.Low),
        (bucketRows (assigned df10 "x") ((0 : Nat), some (1 : ℚ)).1
          Bucket.Low).length) ∧
    cell "ew" (assigned df10 "x") ((0 : Nat), some (1 : ℚ)).1 Bucket.High =
      some (port_ret "ew"
        (bucketRows (assigned df10 "x") ((0 : Nat), some (1 : ℚ)).1 Bucket.High),
        (bucketRows (assigned df10 "x") ((0 : Nat), some (1 : ℚ)).1
          Bucket.High).length) ∧
    5 ≤ (bucketRows (assigned df10 "x") ((0 : Nat), some (1 : ℚ)).1
      Bucket.Low).length ∧
    5 ≤ (bucketRows (assigned df10 "x") ((0 : Nat), some (1 : ℚ)).1
      Bucket.High).length ∧
    ((0 : Nat), some (1 : ℚ)).2 = some (if "long" == "long"
      then port_ret "ew"
        (bucketRows (assigned df10 "x") ((0 : Nat), some (1 : ℚ)).1 Bucket.High) -
        port_ret "ew"
          (bucketRows (assigned df10 "x") ((0 : Nat), some (1 : ℚ)).1 Bucket.Low)
      else port_ret "ew"
        (bucketRows (assigned df10 "x") ((0 : Nat), some (1 : ℚ)).1 Bucket.Low) -
        port_ret "ew"
          (bucketRows (assigned df10 "x") ((0 : Nat), some (1 : ℚ)).1
            Bucket.High)) :=
  C10_present_extremes df10 "x" "ew" "long" [(0, some 1)] (0, some 1)
    (by decide) (by decide)

/-- Claim C6: for every surviving month the factor value is
`High − Low` when the direction is the long-high token (`'long'`) and
`Low − High` when it is the long-low token (`'short'`); each output row
is exactly the pair (month-end key, named factor value). -/
theorem C6_direction_sign (df : List Obs) (c s : String)
    (outL outS : List (Nat × Option ℚ)) (p q : Nat × Option ℚ)
    (hokL : construct_factor_portfolio df c s "long" = Except.ok outL)
    (hokS : construct_factor_portfolio df c s "short" = Except.ok outS)
    (hp : p ∈ outL) (hq : q ∈ outS) :
    p.2 = some (port_ret s (bucketRows (assigned df c) p.1 Bucket.High) -
      port_ret s (bucketRows (assigned df c) p.1 Bucket.Low)) ∧
    q.2 = some (port_ret s (bucketRows (assigned df c) q.1 Bucket.Low) -
      port_ret s (bucketRows (assigned df c) q.1 Bucket.High)) := by
  obtain ⟨hpassL, hvalL⟩ := out_row_spec hokL hp
  obtain ⟨hpassS, hvalS⟩ := out_row_spec hokS hq
  obtain ⟨-, -, hfvL⟩ := factorValue_of_passes (d := "long") hpassL
  obtain ⟨-, -, hfvS⟩ := factorValue_of_passes (d := "short") hpassS
  constructor
  · rw [hvalL, hfvL]
    rfl
  · rw [hvalS, hfvS]
    rfl

/-- Witness for C6: on `df10` the High return is 2 and the Low return
is 1, so `'long'` yields `+1` and `'short'` yields `-1`. -/
theorem C6_witness :
    (((0 : Nat), some (1 : ℚ)).2 =
      some (port_ret "ew"
        (bucketRows (assigned df10 "x") ((0 : Nat), some (1 : ℚ)).1 Bucket.High) -
        port_ret "ew"
          (bucketRows (assigned df10 "x")
            ((0 : Nat), some (1 : ℚ)).1 Bucket.Low)) ∧
     ((0 : Nat), some (-1 : ℚ)).2 =
      some (port_ret "ew"
        (bucketRows (assigned df10 "x") ((0 : Nat), some (-1 : ℚ)).1 Bucket.Low) -
        port_ret "ew"
          (bucketRows (assigned df10 "x")
            ((0 : Nat), some (-1 : ℚ)).1 Bucket.High))) ∧
    port_ret "ew" (bucketRows (assigned df10 "x") 0 Bucket.High) = 2 ∧
    port_ret "ew" (bucketRows (assigned df10 "x") 0 Bucket.Low) = 1 :=
  ⟨C6_direction_sign df10 "x" "ew" [(0, some 1)] [(0, some (-1))]
      (0, some 1) (0, some (-1)) (by decide) (by decide) (by decide) (by decide),
   by decide, by decide⟩

/-- Witness for the amended C7: an unknown scheme errors, a valid
scheme does not raise the configuration error, and a malformed
direction behaves as the long-low branch. -/
theorem C7_witness :
    construct_factor_portfolio df10 "x" "qq" "long" =
      Except.error ("Unknown weighting scheme: " ++ "qq") ∧
    ((construct_factor_portfolio df10 "x" "vw" "long").isOk = true ∨
      construct_factor_portfolio df10 "x" "vw" "long" =
        Except.error "ColumnNotFoundError") ∧
    construct_factor_portfolio df10 "x" "vw" "banana" =
      construct_factor_portfolio df10 "x" "vw" "short" :=
  ⟨(C7_amended df10 "x" "qq" "long").1 (by decide),
   (C7_amended df10 "x" "vw" "long").2.1 (by decide),
   (C7_amended df10 "x" "vw" "banana").2.2 (by decide)⟩
